import Mathlib

/-!
Verification development for the touracle weather acquisition core.

Shallow embedding of the Python modules
`project/backend/weather_service.py`, `project/backend/weather_openmeteo.py`,
`project/backend/offline_weather_store.py`, `project/backend/weather.py` and
`project/offline/build_offline_tiles_openmeteo.py`.

Conventions used throughout:
- Python floats are modelled as `ℚ` where the code only compares, adds,
  multiplies and divides (timestamps, coordinates, scores), and as `ℝ` for
  the trigonometric wind statistics.
- The filesystem (disk cache, circuit-breaker file) is modelled as explicit
  fields of a state record; file names are modelled structurally by the key
  data that the Python code formats into the name.
- External effects (HTTP responses, JSON parsing) are driven by an explicit
  script argument: attempt `k` of the retry loop observes `script k`.
-/

namespace Touracle

/-! ## Offline store-file selection

Model of `OfflineWeatherStore.default_from_env`
(`project/backend/offline_weather_store.py`, lines 58-125).  A candidate
store file is reduced to the data the selection loop actually reads: its
tile count (`SELECT COUNT(*) FROM tiles`), the optional `(start, end)` year
range of its config, and its modification time. -/

structure StoreFile where
  tileCount : Nat
  years : Option (Int × Int)
  mtime : ℚ
deriving DecidableEq, Repr

/-- Computes `span_years = max(0, ye - ys + 1)` when `cfg.years` is present, else 0
(source lines 110-115). -/
def spanYears (f : StoreFile) : Int :=
  match f.years with
  | some (ys, ye) => max 0 (ye - ys + 1)
  | none => 0

/-- Computes `end_year = ye` when `cfg.years` is present, else 0 (source lines 111-115). -/
def endYear (f : StoreFile) : Int :=
  match f.years with
  | some (_, ye) => ye
  | none => 0

/-- The score tuple `(tile_count, span_years, end_year, mtime)` (source line 117). -/
def score (f : StoreFile) : Nat × Int × Int × ℚ :=
  (f.tileCount, spanYears f, endYear f, f.mtime)

/-- Python's lexicographic `<` on the 4-tuple score. -/
def tupLt (a b : Nat × Int × Int × ℚ) : Prop :=
  a.1 < b.1 ∨ (a.1 = b.1 ∧ (a.2.1 < b.2.1 ∨ (a.2.1 = b.2.1 ∧
    (a.2.2.1 < b.2.2.1 ∨ (a.2.2.1 = b.2.2.1 ∧ a.2.2.2 < b.2.2.2)))))

instance (a b : Nat × Int × Int × ℚ) : Decidable (tupLt a b) := by
  unfold tupLt; infer_instance

/-- One step of the selection loop: `if best is None or score > best[:4]`
(source lines 118-119). -/
def selectStep (best : Option StoreFile) (f : StoreFile) : Option StoreFile :=
  match best with
  | none => some f
  | some b => if tupLt (score b) (score f) then some f else some b

/-- The auto-detect selection of `default_from_env` over the (already
validated, existing) candidate files in their scan order. -/
def defaultFromEnv (candidates : List StoreFile) : Option StoreFile :=
  candidates.foldl selectStep none

/-- Modelled from the spec's words (for comparison with `defaultFromEnv`):
the tie-break order the spec describes — tile count, then year span, then
modification time, with no other criterion. -/
def specScore (f : StoreFile) : Nat × Int × ℚ :=
  (f.tileCount, spanYears f, f.mtime)

/-- Lexicographic `<` on the spec's 3-tuple score. -/
def specTupLt (a b : Nat × Int × ℚ) : Prop :=
  a.1 < b.1 ∨ (a.1 = b.1 ∧ (a.2.1 < b.2.1 ∨ (a.2.1 = b.2.1 ∧ a.2.2 < b.2.2)))

instance (a b : Nat × Int × ℚ) : Decidable (specTupLt a b) := by
  unfold specTupLt; infer_instance

/-- Selection as the spec words it: maximize `specScore` lexicographically. -/
def specSelect (candidates : List StoreFile) : Option StoreFile :=
  candidates.foldl
    (fun best f =>
      match best with
      | none => some f
      | some b => if specTupLt (specScore b) (specScore f) then some f else some b)
    none

/-! ## Offline store config validation

Model of `OfflineWeatherStore._load_config`
(`project/backend/offline_weather_store.py`, lines 127-159).  The `meta`
SQL table is modelled as an association list; JSON / float parsing
(`float(...)`, `_parse_bbox`, `json.loads` on `years`) is abstracted by
parser arguments, where `none` models the corresponding Python exception. -/

structure OfflineTileConfig where
  dbPath : String
  tileKm : ℚ
  bbox : ℚ × ℚ × ℚ × ℚ
  years : Option (Int × Int)
deriving DecidableEq, Repr

/-- ASCII lower-casing of one character (the range relevant to the meta
values compared here; models Python's `str.lower()` on them). -/
def lowerChar (c : Char) : Char :=
  if 'A' ≤ c ∧ c ≤ 'Z' then Char.ofNat (c.toNat + 32) else c

/-- Python `str.lower()` over the string's characters. -/
def strLower (s : String) : String := ⟨s.data.map lowerChar⟩

def loadConfig (dbPath : String) (meta : List (String × String))
    (parseFloat : String → Option ℚ)
    (parseBbox : String → Option (ℚ × ℚ × ℚ × ℚ))
    (parseYears : String → Option (Int × Int)) : Option OfflineTileConfig :=
  if meta.lookup "provider" ≠ some "open-meteo" then none
  else if strLower ((meta.lookup "provider_only").getD "") ≠ "true" then none
  else
    match meta.lookup "bbox" with
    | none => none
    | some rawBbox =>
      match parseFloat ((meta.lookup "tile_km").getD "50"), parseBbox rawBbox with
      | some tileKm, some bbox =>
        let years : Option (Int × Int) :=
          match meta.lookup "years" with
          | none => none
          | some raw => if raw = "" then none else parseYears raw
        some ⟨dbPath, tileKm, bbox, years⟩
      | _, _ => none

/-- Concrete meta table whose `provider_only` value is `"True"` (capital T). -/
def metaCapitalTrue : List (String × String) :=
  [("provider", "open-meteo"), ("provider_only", "True"),
   ("tile_km", "50"), ("bbox", "BB")]

/-- Concrete meta table whose `provider_only` value is `"false"`. -/
def metaFalse : List (String × String) :=
  [("provider", "open-meteo"), ("provider_only", "false"),
   ("tile_km", "50"), ("bbox", "BB")]

/-- Concrete float parser used by witnesses. -/
def pf0 (s : String) : Option ℚ := if s = "50" then some 50 else none

/-- Concrete bbox parser used by witnesses. -/
def pb0 (s : String) : Option (ℚ × ℚ × ℚ × ℚ) :=
  if s = "BB" then some (43, 44, 1, 2) else none

/-- Concrete years parser used by witnesses. -/
def py0 (_ : String) : Option (Int × Int) := none

/-! ## Circular wind statistics

Model of `compute_wind_statistics` (`project/backend/weather.py`,
lines 11-29).  The pandas series is a `List (Option ℝ)` whose `none`
entries are the missing values removed by `dropna()`; numpy's trigonometry
is modelled over `ℝ`. -/

noncomputable def deg2rad (d : ℝ) : ℝ := d * Real.pi / 180

noncomputable def rad2deg (r : ℝ) : ℝ := r * 180 / Real.pi

/-- numpy `arctan2(y, x)` (real-number semantics, no signed zeros). -/
noncomputable def arctan2 (y x : ℝ) : ℝ :=
  if 0 < x then Real.arctan (y / x)
  else if x < 0 then
    (if 0 ≤ y then Real.arctan (y / x) + Real.pi else Real.arctan (y / x) - Real.pi)
  else
    (if 0 < y then Real.pi / 2 else if y < 0 then -(Real.pi / 2) else 0)

/-- Python float `x % 360.0` (result carries the divisor's sign). -/
noncomputable def pymod360 (x : ℝ) : ℝ := x - 360 * ⌊x / 360⌋

structure WindStats where
  windDirDeg : ℝ
  windVarDeg : ℝ

/-- Computes `mean(sin(radians))` over the retained directions (source line 20). -/
noncomputable def meanSin (dirs : List ℝ) : ℝ :=
  (dirs.map fun d => Real.sin (deg2rad d)).sum / dirs.length

/-- Computes `mean(cos(radians))` over the retained directions (source line 21). -/
noncomputable def meanCos (dirs : List ℝ) : ℝ :=
  (dirs.map fun d => Real.cos (deg2rad d)).sum / dirs.length

/-- The resultant length `R = sqrt(mean_sin² + mean_cos²)` (source line 23). -/
noncomputable def resultantLen (dirs : List ℝ) : ℝ :=
  Real.sqrt (meanSin dirs ^ 2 + meanCos dirs ^ 2)

/-- The body of `compute_wind_statistics` after `dropna()` (source
lines 17-29): size guard, circular mean via `atan2` of the sin/cos means
followed by `% 360`, and circular standard deviation `sqrt(-2 ln R)` with
sentinel `π` when `R ≤ 0`. -/
noncomputable def windStatsCore (dirs : List ℝ) : WindStats :=
  if dirs.length = 0 then ⟨0, 180⟩
  else
    ⟨pymod360 (rad2deg (arctan2 (meanSin dirs) (meanCos dirs))),
     rad2deg (if resultantLen dirs ≤ 0 then Real.pi
              else Real.sqrt (-2 * Real.log (resultantLen dirs)))⟩

/-- Model of `compute_wind_statistics(directions_deg)`: drop missing values, then
compute the circular statistics. -/
noncomputable def compute_wind_statistics (directions : List (Option ℝ)) : WindStats :=
  windStatsCore (directions.filterMap id)

/-! The exact-real trigonometry above is adequate where the program's
float computation either coincides with it exactly (all operations on the
all-zero direction set are exact in IEEE doubles) or where the conclusion
is robust to rounding (the wrap-around mean).  The sentinel branch
`R <= 0` of source line 24 is different: whether it fires depends on
whether the library sine/cosine residues cancel exactly.  The following
variant therefore abstracts the double-precision `np.sin`/`np.cos` the
program calls as function parameters; `windStatsCoreWith Real.sin
Real.cos` is definitionally `windStatsCore`. -/

/-- Computes `mean(sinF(radians))` with the sine library abstracted. -/
noncomputable def meanSinWith (sinF : ℝ → ℝ) (dirs : List ℝ) : ℝ :=
  (dirs.map fun d => sinF (deg2rad d)).sum / dirs.length

/-- Computes `mean(cosF(radians))` with the cosine library abstracted. -/
noncomputable def meanCosWith (cosF : ℝ → ℝ) (dirs : List ℝ) : ℝ :=
  (dirs.map fun d => cosF (deg2rad d)).sum / dirs.length

/-- The resultant length with the trigonometric library abstracted. -/
noncomputable def resultantLenWith (sinF cosF : ℝ → ℝ) (dirs : List ℝ) : ℝ :=
  Real.sqrt (meanSinWith sinF dirs ^ 2 + meanCosWith cosF dirs ^ 2)

/-- The body of `compute_wind_statistics` after `dropna()` with the
trigonometric library abstracted. -/
noncomputable def windStatsCoreWith (sinF cosF : ℝ → ℝ) (dirs : List ℝ) :
    WindStats :=
  if dirs.length = 0 then ⟨0, 180⟩
  else
    ⟨pymod360 (rad2deg (arctan2 (meanSinWith sinF dirs) (meanCosWith cosF dirs))),
     rad2deg (if resultantLenWith sinF cosF dirs ≤ 0 then Real.pi
              else Real.sqrt (-2 * Real.log (resultantLenWith sinF cosF dirs)))⟩

/-- Double-precision sine values numpy returns at the four cardinal
angles after `deg2rad` (decimal readbacks of the doubles; correctly
rounded values of the sine at the rounded arguments): the sine at the
double nearest `π` is about `1.2246e-16`, not 0. -/
noncomputable def sinF0 : ℝ → ℝ := fun x =>
  if x = deg2rad 90 then 1
  else if x = deg2rad 180 then 12246467991473532 / 10 ^ 32
  else if x = deg2rad 270 then -1
  else 0

/-- Double-precision cosine values numpy returns at the four cardinal
angles after `deg2rad`: the cosines at the doubles nearest `π/2` and
`3π/2` are about `6.12e-17` and `-1.84e-16`, not 0. -/
noncomputable def cosF0 : ℝ → ℝ := fun x =>
  if x = deg2rad 90 then 6123233995736766 / 10 ^ 32
  else if x = deg2rad 180 then -1
  else if x = deg2rad 270 then -(18369701987210297 / 10 ^ 32)
  else 1

/-! ## WeatherService: worker loop, caches, error surface

Model of `WeatherService` (`project/backend/weather_service.py`).  The
raw JSON payload of a response is an abstract token (`Payload := Nat`); HTTP attempt
`k` of the retry ladder observes `script k`; `now` stands for the clock at
dispatch time.  Disk-cache file names are modelled structurally by the key
data the Python code formats into the name. -/

/-- Opaque raw provider payload (the parsed `resp.json()` dict). -/
abbrev Payload := Nat

/-- What one `requests.get` attempt produces: a response with a status and
an optional parsed body (`none` models `resp.json()` raising), or a raised
network exception. -/
inductive AttemptOutcome where
  | ok (status : Nat) (body : Option Payload)
  | exn
deriving DecidableEq, Repr

structure HResp where
  status : Nat
  body : Option Payload
deriving DecidableEq, Repr

/-- The retry loop of `_worker_loop` (source lines 172-192):
`delays = [1, 2, 4]`, so `range(len(delays) + 1)` makes at most 4
attempts.  A non-429 response breaks out; a 429 retries while
`attempt < 3` and otherwise survives the loop as the final response; a
network exception retries while `attempt < 3` and otherwise leaves
`resp = None`.  Sleeps are invisible here.  `fuel` only drives structural
recursion; `retryFetch` supplies 4, matching the `range`. -/
def retryAux (script : Nat → AttemptOutcome) (attempt : Nat) : Nat → Option HResp
  | 0 => none
  | fuel + 1 =>
    match script attempt with
    | .ok s b =>
      if s = 429 then
        if attempt < 3 then retryAux script (attempt + 1) fuel else some ⟨429, b⟩
      else some ⟨s, b⟩
    | .exn =>
      if attempt < 3 then retryAux script (attempt + 1) fuel else none

def retryFetch (script : Nat → AttemptOutcome) : Option HResp :=
  retryAux script 0 4

/-- Python `round` to the nearest integer with ties to even (banker's
rounding), on exact rationals. -/
def roundHalfEven (x : ℚ) : ℤ :=
  let f := ⌊x⌋
  let r := x - f
  if r < 1/2 then f
  else if 1/2 < r then f + 1
  else if 2 ∣ f then f else f + 1

/-- Model of `WeatherService._quantize`: `round(v, 1)` — coordinates quantized to
0.1°. -/
def quantize (v : ℚ) : ℚ := (roundHalfEven (v * 10) : ℚ) / 10

/-- A memory-cache key: either the point key built by
`WeatherService._key` (`"{kind}:{qlat}_{qlon}_{year}_{month}_{day}"`) or
the range key built by `get_daily_range`. -/
inductive MemKey where
  | point (kind : String) (qlat qlon : ℚ) (year month day : Nat)
  | range (qlat qlon : ℚ) (startD endD : String)
deriving DecidableEq, Repr

/-- A disk-cache file, identified by the data `_disk_path_daily` /
`_disk_path_daily_range` format into its name. -/
inductive DiskKey where
  | daily (qlat qlon : ℚ) (year month day : Nat)
  | dailyRange (qlat qlon : ℚ) (startD endD : String)
deriving DecidableEq, Repr

/-- The mutable state `WeatherService` touches: memory cache, disk cache
directory, the in-process breaker deadline `_api_disabled_until`, the
shared breaker file `api_disabled_until.txt` (written only by
`weather_openmeteo._mark_api_disabled`, never by `WeatherService`), and
`last_request_ts`. -/
structure SysState where
  mem : List (MemKey × Payload)
  disk : List (DiskKey × Payload)
  apiDisabledUntil : ℚ
  cbFile : Option ℚ
  lastRequestTs : ℚ
deriving DecidableEq, Repr

/-- The errors `_worker_loop` can place in `pending.error`:
`TemporaryAPIUnavailable`, `ValueError` (unsupported kind),
`RuntimeError` (request failed / bad HTTP status), or the raw exception
from `resp.json()` re-raised as-is. -/
inductive WError where
  | temporaryAPIUnavailable (msg : String)
  | valueError (msg : String)
  | runtimeError (msg : String)
  | jsonParseError
deriving DecidableEq, Repr

deriving instance DecidableEq for Except

/-- Gregorian leap year, as `datetime.date` validates it. -/
def isLeap (y : Nat) : Bool := (y % 4 == 0 && y % 100 != 0) || y % 400 == 0

def daysInMonth (y m : Nat) : Nat :=
  if m = 2 then (if isLeap y then 29 else 28)
  else if m = 4 ∨ m = 6 ∨ m = 9 ∨ m = 11 then 30
  else 31

/-- Validity of `datetime.date(year, month, day)` (source line 160 calls
it outside any `try`, so an invalid date kills the worker thread). -/
def validDate (y m d : Nat) : Bool :=
  1 ≤ y && 1 ≤ m && m ≤ 12 && 1 ≤ d && d ≤ daysInMonth y m

/-- The parameters dict enqueued for the worker.  `startD`/`endD` are
present only for `daily_range` tasks (`params['start']`/`params['end']`);
reading an absent one raises `KeyError` in the worker. -/
structure TaskParams where
  kind : String
  lat : ℚ
  lon : ℚ
  year : Nat
  month : Nat
  day : Nat
  startD : Option String
  endD : Option String
deriving DecidableEq, Repr

/-- Lines 170-240 of `_worker_loop`: the retry ladder, breaker activation
on a final 429, error normalization, disk/memory cache writes, and
resolution. -/
def workerFetchPhase (key : MemKey) (p : TaskParams)
    (script : Nat → AttemptOutcome) (now : ℚ) (st : SysState) :
    Option (SysState × Except WError Payload) :=
  match retryFetch script with
  | none => some (st, .error (.runtimeError "Request failed"))
  | some resp =>
    if resp.status = 429 then
      some ({ st with apiDisabledUntil := now + 60 },
        .error (.temporaryAPIUnavailable "429 rate-limited"))
    else if resp.status ≠ 200 then
      some (st, .error (.runtimeError ("HTTP " ++ toString resp.status)))
    else
      match resp.body with
      | none => some (st, .error .jsonParseError)
      | some j =>
        let disk :=
          if p.kind = "daily" then
            (DiskKey.daily (quantize p.lat) (quantize p.lon) p.year p.month p.day, j)
              :: st.disk
          else if p.kind = "daily_range" then
            (DiskKey.dailyRange (quantize p.lat) (quantize p.lon)
              ((p.startD.getD "").replace "-" "") ((p.endD.getD "").replace "-" ""), j)
              :: st.disk
          else st.disk
        some ({ st with disk := disk, mem := (key, j) :: st.mem }, .ok j)

/-- One iteration of `_worker_loop` on a dequeued `(key, params, pending)`
task (source lines 138-240).  Returns `none` when the worker thread dies
from an uncaught exception (the task then never resolves and its callers
block forever); otherwise the new state plus the task's resolution:
`.ok` the payload or `.error` what was put in `pending.error`. -/
def workerHandleTask (key : MemKey) (p : TaskParams)
    (script : Nat → AttemptOutcome) (now : ℚ) (st : SysState) :
    Option (SysState × Except WError Payload) :=
  if now < st.apiDisabledUntil then
    some (st, .error (.temporaryAPIUnavailable "Circuit breaker active"))
  else
    let st := { st with lastRequestTs := now }
    if p.kind = "daily" ∨ p.kind = "hourly" then
      if validDate p.year p.month p.day then
        workerFetchPhase key p script now st
      else none
    else if p.kind = "daily_range" then
      match p.startD, p.endD with
      | some _, some _ => workerFetchPhase key p script now st
      | _, _ => none
    else
      some (st, .error (.valueError ("Unsupported kind: " ++ p.kind)))

/-- The disk-cache read of `get_weather` (source lines 256-267): only
`kind == 'daily'` consults the disk, and only under the `daily` file
name. -/
def getWeatherDiskRead (kind : String) (qlat qlon : ℚ) (year month day : Nat)
    (disk : List (DiskKey × Payload)) : Option Payload :=
  if kind = "daily" then disk.lookup (DiskKey.daily qlat qlon year month day)
  else none

/-- Model of `WeatherService.get_weather` (source lines 242-292) in single-caller
semantics: memory cache, then disk cache (daily only), then the worker.
`dry_run` and the pending-join path are omitted; the pending table under
concurrency is modelled separately below.  Returns `none` when the worker
dies and the caller blocks forever. -/
def getWeather (kind : String) (lat lon : ℚ) (year month day : Nat)
    (script : Nat → AttemptOutcome) (now : ℚ) (st : SysState) :
    Option (SysState × Except WError Payload) :=
  match st.mem.lookup (MemKey.point kind (quantize lat) (quantize lon) year month day) with
  | some j => some (st, .ok j)
  | none =>
    match getWeatherDiskRead kind (quantize lat) (quantize lon) year month day st.disk with
    | some j =>
      some ({ st with
        mem := (MemKey.point kind (quantize lat) (quantize lon) year month day, j)
          :: st.mem }, .ok j)
    | none =>
      workerHandleTask (MemKey.point kind (quantize lat) (quantize lon) year month day)
        ⟨kind, lat, lon, year, month, day, none, none⟩ script now st

/-- Modelled from the spec: §7's taxonomy — the only error type the code
defines and the only one falling under the spec's four kinds is
`TemporaryAPIUnavailable`; raw `RuntimeError` / `ValueError` / re-raised
JSON parsing exceptions are not taxonomy kinds. -/
def isSpecTaxonomy (e : WError) : Bool :=
  match e with
  | .temporaryAPIUnavailable _ => true
  | _ => false

/-! Legacy rate-limit state of `weather_openmeteo.py`: module globals
`_API_DISABLED_UNTIL`, `_MIN_INTERVAL_SEC`, `_LAST_REQUEST_TS` and the
shared breaker file `CB_FILE`. -/

structure LegacyState where
  apiDisabledUntil : ℚ
  minIntervalSec : ℚ
  lastRequestTs : ℚ
  cbFile : Option ℚ
deriving DecidableEq, Repr

/-- Model of `_mark_api_disabled(seconds)` (weather_openmeteo.py lines 51-62):
sets `_API_DISABLED_UNTIL = now + max(0, seconds)` and persists that
deadline to the shared file. -/
def markApiDisabled (seconds : ℚ) (now : ℚ) (st : LegacyState) : LegacyState :=
  { st with apiDisabledUntil := now + max 0 seconds,
            cbFile := some (now + max 0 seconds) }

/-- Model of `_adjust_interval_on_429()` (lines 147-150): double the pacing
interval, capped at `_MAX_INTERVAL_SEC = 1.0`. -/
def adjustIntervalOn429 (st : LegacyState) : LegacyState :=
  { st with minIntervalSec := min (st.minIntervalSec * 2) 1 }

/-! ## Pending-request de-duplication under concurrency

Interleaving semantics for the pending-table fragment, for one fixed
request key and `n` concurrent callers.  A caller's life for that key:
read the pending table; if an entry exists, join it; otherwise create and
register a `_Pending` and enqueue a fetch.  `fetches` counts
registrations, i.e. enqueued outbound fetches for the key.

In `WeatherService.get_weather` (weather_service.py lines 269-283) the
read `cls.pending.get(key)` and the write `cls.pending[key] = pending`
are separate interpreter steps with no lock held, so a scheduler may
interleave two callers between them.  In `perform_request_dedup`
(weather_openmeteo.py lines 98-108) both happen inside one
`with _RATE_LOCK` block, i.e. as a single atomic step. -/

inductive CallerPC where
  | start
  | sawEmpty
  | registered
  | joined
deriving DecidableEq, Repr

structure DedupState (n : Nat) where
  pendingPresent : Bool
  fetches : Nat
  pc : Fin n → CallerPC

def initDedup (n : Nat) : DedupState n := ⟨false, 0, fun _ => .start⟩

/-- One scheduler step of caller `i` running `get_weather`'s unlocked
check-then-register. -/
def stepUnlocked {n : Nat} (st : DedupState n) (i : Fin n) : DedupState n :=
  match st.pc i with
  | .start =>
    if st.pendingPresent then { st with pc := Function.update st.pc i .joined }
    else { st with pc := Function.update st.pc i .sawEmpty }
  | .sawEmpty =>
    { st with pendingPresent := true, fetches := st.fetches + 1,
              pc := Function.update st.pc i .registered }
  | _ => st

/-- One scheduler step of caller `i` running `perform_request_dedup`'s
locked check-and-register (one atomic step under `_RATE_LOCK`). -/
def stepLocked {n : Nat} (st : DedupState n) (i : Fin n) : DedupState n :=
  match st.pc i with
  | .start =>
    if st.pendingPresent then { st with pc := Function.update st.pc i .joined }
    else { st with pendingPresent := true, fetches := st.fetches + 1,
                   pc := Function.update st.pc i .registered }
  | _ => st

def runUnlocked (n : Nat) (sched : List (Fin n)) : DedupState n :=
  sched.foldl stepUnlocked (initDedup n)

def runLocked (n : Nat) (sched : List (Fin n)) : DedupState n :=
  sched.foldl stepLocked (initDedup n)

/-- Empty caches, breaker off. -/
def stEmpty : SysState := ⟨[], [], 0, none, 0⟩

/-- Breaker active until t=5. -/
def stBreaker : SysState := ⟨[], [], 5, none, 0⟩

def keyD : MemKey := .point "daily" 0 0 2020 1 1

def pD : TaskParams := ⟨"daily", 0, 0, 2020, 1, 1, none, none⟩

def script429 : Nat → AttemptOutcome := fun _ => .ok 429 none

def scriptBadJson : Nat → AttemptOutcome := fun _ => .ok 200 none

/-- State with a memory-cache hit for an hourly key. -/
def stHourly : SysState := ⟨[(MemKey.point "hourly" 0 0 2020 1 1, 7)], [], 0, none, 0⟩

/-- Candidate with an older year range but a more recent mtime. -/
def fA : StoreFile := ⟨10, some (2000, 2004), 100⟩

/-- Candidate tied on tile count and span, newer end year, older mtime. -/
def fB : StoreFile := ⟨10, some (2015, 2019), 50⟩

/-! ## Geo tile grid and its inverse

Model of the offline build's tile generator `tile_grid_approx_50km`
(`project/offline/build_offline_tiles_openmeteo.py`, lines 189-229) and
the reader's `OfflineWeatherStore._tile_id_for_point`
(`project/backend/offline_weather_store.py`, lines 161-185).

Both compute `cos(radians(lat_c))` through the same library function; the
embedding abstracts that shared function as a parameter `cosFn : ℚ → ℚ`
(absorbing the degree→radian conversion), applied to the identical
latitude-center argument on both sides.  Exact rational arithmetic stands
for the floats. -/

def KM_PER_DEG : ℚ := 11132 / 100

structure Tile where
  tileId : String
  row : Nat
  col : Nat
  lat : ℚ
  lon : ℚ
deriving DecidableEq, Repr

/-- Model of `clamp_lat` (build source lines 50-51). -/
def clampLat (lat : ℚ) : ℚ := max (-90) (min 90 lat)

/-- The identifier format `"r{row}_c{col}"`. -/
def tileIdStr (row col : Nat) : String :=
  "r" ++ toString row ++ "_c" ++ toString col

/-- The row center `lat_c = lat_min + (row + 0.5) * step_lat`. -/
def latCenter (latMin stepLat : ℚ) (row : Nat) : ℚ :=
  latMin + ((row : ℚ) + 1/2) * stepLat

/-- The column center `lon_c = lon_min + (col + 0.5) * step_lon`. -/
def lonCenter (lonMin stepLon : ℚ) (col : Nat) : ℚ :=
  lonMin + ((col : ℚ) + 1/2) * stepLon

/-- The inner column loop of `tile_grid_approx_50km` for one row (source
lines 220-228); the `break` on `lon_c > lon_max` is the `takeWhile`. -/
def tileRowTiles (cosFn : ℚ → ℚ) (lonMin lonMax tileKm latC : ℚ)
    (row : Nat) : List Tile :=
  let c := max (1/20) (cosFn latC)
  let stepLon := tileKm / (KM_PER_DEG * c)
  let nCols := (⌈(lonMax - lonMin) / stepLon⌉).toNat
  ((List.range nCols).takeWhile fun col =>
      decide (lonCenter lonMin stepLon col ≤ lonMax)).map
    fun col => ⟨tileIdStr row col, row, col, clampLat latC,
      lonCenter lonMin stepLon col⟩

/-- The row loop (source lines 211-229); the `break` on
`lat_c > lat_max` is the `takeWhile`. -/
def tileGridRows (cosFn : ℚ → ℚ) (latMin latMax lonMin lonMax tileKm : ℚ) :
    List Tile :=
  let stepLat := tileKm / KM_PER_DEG
  let nRows := (⌈(latMax - latMin) / stepLat⌉).toNat
  ((List.range nRows).takeWhile fun row =>
      decide (latCenter latMin stepLat row ≤ latMax)).flatMap
    fun row =>
      tileRowTiles cosFn lonMin lonMax tileKm (latCenter latMin stepLat row) row

/-- Model of `tile_grid_approx_50km`; `none` models the `ValueError` raised for an
invalid bbox (source lines 207-208). -/
def tileGrid (cosFn : ℚ → ℚ) (latMin latMax lonMin lonMax tileKm : ℚ) :
    Option (List Tile) :=
  if latMax ≤ latMin ∨ lonMax ≤ lonMin then none
  else some (tileGridRows cosFn latMin latMax lonMin lonMax tileKm)

/-- Model of `_tile_id_for_point` (reader, source lines 161-185).  The Python code
formats the non-negative int `row` directly; after the `row < 0` guard it
equals `row.toNat`, which prints identically. -/
def tileIdForPoint (cosFn : ℚ → ℚ) (tileKm latMin latMax lonMin lonMax : ℚ)
    (lat lon : ℚ) : Option String :=
  if ¬ (latMin ≤ lat ∧ lat ≤ latMax ∧ lonMin ≤ lon ∧ lon ≤ lonMax) then none
  else
    let stepLat := tileKm / KM_PER_DEG
    let row : ℤ := ⌊(lat - latMin) / stepLat⌋
    if row < 0 then none
    else
      let latC := latCenter latMin stepLat row.toNat
      if latC > latMax + 1 / 10 ^ 9 then none
      else
        let c := max (1/20) (cosFn latC)
        let stepLon := tileKm / (KM_PER_DEG * c)
        let col : ℤ := ⌊(lon - lonMin) / stepLon⌋
        if col < 0 then none
        else
          let lonC := lonCenter lonMin stepLon col.toNat
          if lonC > lonMax + 1 / 10 ^ 9 then none
          else some (tileIdStr row.toNat col.toNat)

/-- Constant stand-in for the shared cosine function, used by the
witness. -/
def cosHalf : ℚ → ℚ := fun _ => 1/2

/-- The grid the generator produces for bbox `(0,1,0,2)` and
`tile_km = 55.66` under `cosHalf` (lat step 1/2, lon step 1). -/
def tiles0 : List Tile :=
  [⟨"r0_c0", 0, 0, 1/4, 1/2⟩, ⟨"r0_c1", 0, 1, 1/4, 3/2⟩,
   ⟨"r1_c0", 1, 0, 3/4, 1/2⟩, ⟨"r1_c1", 1, 1, 3/4, 3/2⟩]

lemma tupLt_irrefl (a : Nat × Int × Int × ℚ) : ¬ tupLt a a := by
  unfold tupLt
  rintro (h | ⟨_, h | ⟨_, h | ⟨_, h⟩⟩⟩) <;> exact lt_irrefl _ h

lemma tupLt_trans {a b c : Nat × Int × Int × ℚ}
    (h1 : tupLt a b) (h2 : tupLt b c) : tupLt a c := by
  unfold tupLt at h1 h2 ⊢
  rcases h1 with h1 | ⟨e1, h1⟩
  · rcases h2 with h2 | ⟨e2, h2⟩
    · exact Or.inl (lt_trans h1 h2)
    · exact Or.inl (e2 ▸ h1)
  · rcases h2 with h2 | ⟨e2, h2⟩
    · exact Or.inl (e1 ▸ h2)
    · refine Or.inr ⟨e1.trans e2, ?_⟩
      rcases h1 with h1 | ⟨f1, h1⟩
      · rcases h2 with h2 | ⟨f2, h2⟩
        · exact Or.inl (lt_trans h1 h2)
        · exact Or.inl (f2 ▸ h1)
      · rcases h2 with h2 | ⟨f2, h2⟩
        · exact Or.inl (f1 ▸ h2)
        · refine Or.inr ⟨f1.trans f2, ?_⟩
          rcases h1 with h1 | ⟨g1, h1⟩
          · rcases h2 with h2 | ⟨g2, h2⟩
            · exact Or.inl (lt_trans h1 h2)
            · exact Or.inl (g2 ▸ h1)
          · rcases h2 with h2 | ⟨g2, h2⟩
            · exact Or.inl (g1 ▸ h2)
            · exact Or.inr ⟨g1.trans g2, lt_trans h1 h2⟩

lemma tupLt_total (a b : Nat × Int × Int × ℚ) :
    tupLt a b ∨ a = b ∨ tupLt b a := by
  obtain ⟨a1, a2, a3, a4⟩ := a
  obtain ⟨b1, b2, b3, b4⟩ := b
  unfold tupLt
  rcases lt_trichotomy a1 b1 with h | h | h
  · exact Or.inl (Or.inl h)
  · rcases lt_trichotomy a2 b2 with h2 | h2 | h2
    · exact Or.inl (Or.inr ⟨h, Or.inl h2⟩)
    · rcases lt_trichotomy a3 b3 with h3 | h3 | h3
      · exact Or.inl (Or.inr ⟨h, Or.inr ⟨h2, Or.inl h3⟩⟩)
      · rcases lt_trichotomy a4 b4 with h4 | h4 | h4
        · exact Or.inl (Or.inr ⟨h, Or.inr ⟨h2, Or.inr ⟨h3, h4⟩⟩⟩)
        · exact Or.inr (Or.inl (by simp [h, h2, h3, h4]))
        · exact Or.inr (Or.inr (Or.inr ⟨h.symm, Or.inr ⟨h2.symm, Or.inr ⟨h3.symm, h4⟩⟩⟩))
      · exact Or.inr (Or.inr (Or.inr ⟨h.symm, Or.inr ⟨h2.symm, Or.inl h3⟩⟩))
    · exact Or.inr (Or.inr (Or.inr ⟨h.symm, Or.inl h2⟩))
  · exact Or.inr (Or.inr (Or.inl h))

/-- The selection fold, started from `some b`, returns an element that is
either `b` or from the list, and that no inspected candidate strictly
beats. -/
lemma selectAux (cands : List StoreFile) :
    ∀ (b f : StoreFile), cands.foldl selectStep (some b) = some f →
      (f = b ∨ f ∈ cands) ∧ ¬ tupLt (score f) (score b) ∧
        ∀ g ∈ cands, ¬ tupLt (score f) (score g) := by
  induction cands with
  | nil =>
    intro b f h
    simp only [List.foldl_nil, Option.some.injEq] at h
    subst h
    exact ⟨Or.inl rfl, tupLt_irrefl _, by simp⟩
  | cons x xs ih =>
    intro b f h
    simp only [List.foldl_cons] at h
    by_cases hx : tupLt (score b) (score x)
    · have hstep : selectStep (some b) x = some x := by
        simp [selectStep, hx]
      rw [hstep] at h
      obtain ⟨hmem, hge, hall⟩ := ih x f h
      refine ⟨?_, ?_, ?_⟩
      · rcases hmem with rfl | hm
        · exact Or.inr (List.mem_cons_self _ _)
        · exact Or.inr (List.mem_cons_of_mem _ hm)
      · intro hc
        exact hge (tupLt_trans hc hx)
      · intro g hg
        rcases List.mem_cons.mp hg with rfl | hg'
        · exact hge
        · exact hall g hg'
    · have hstep : selectStep (some b) x = some b := by
        simp [selectStep, hx]
      rw [hstep] at h
      obtain ⟨hmem, hge, hall⟩ := ih b f h
      refine ⟨?_, hge, ?_⟩
      · rcases hmem with rfl | hm
        · exact Or.inl rfl
        · exact Or.inr (List.mem_cons_of_mem _ hm)
      · intro g hg
        rcases List.mem_cons.mp hg with rfl | hg'
        · intro hc
          rcases tupLt_total (score f) (score b) with hlt | heq | hgt
          · exact hge hlt
          · exact hx (heq ▸ hc)
          · exact hx (tupLt_trans hgt hc)
        · exact hall g hg'

lemma rad2deg_zero : rad2deg 0 = 0 := by
  unfold rad2deg; ring

lemma pymod360_zero : pymod360 0 = 0 := by
  unfold pymod360
  norm_num

lemma cos_deg2rad_ten_pos : 0 < Real.cos (deg2rad 10) := by
  have hpi := Real.pi_pos
  refine Real.cos_pos_of_mem_Ioo ⟨?_, ?_⟩ <;> unfold deg2rad <;> nlinarith

lemma rad2deg_pi : rad2deg Real.pi = 180 := by
  unfold rad2deg
  field_simp

lemma sin_deg2rad_350 : Real.sin (deg2rad 350) = -Real.sin (deg2rad 10) := by
  have h : deg2rad 350 = -deg2rad 10 + 2 * Real.pi := by unfold deg2rad; ring
  rw [h, Real.sin_add_two_pi, Real.sin_neg]

lemma cos_deg2rad_350 : Real.cos (deg2rad 350) = Real.cos (deg2rad 10) := by
  have h : deg2rad 350 = -deg2rad 10 + 2 * Real.pi := by unfold deg2rad; ring
  rw [h, Real.cos_add_two_pi, Real.cos_neg]

lemma meanSin_350_10 : meanSin [350, 10] = 0 := by
  unfold meanSin
  simp only [List.map_cons, List.map_nil, List.sum_cons, List.sum_nil,
    List.length_cons, List.length_nil, sin_deg2rad_350]
  push_cast
  ring

lemma meanCos_350_10 : meanCos [350, 10] = Real.cos (deg2rad 10) := by
  unfold meanCos
  simp only [List.map_cons, List.map_nil, List.sum_cons, List.sum_nil,
    List.length_cons, List.length_nil, cos_deg2rad_350]
  push_cast
  ring

/-- C7: the circular mean of the directions 350° and 10° is exactly 0°
(wrap-around handled), in particular it is not 180°. -/
theorem wind_circular_mean_wraparound :
    (compute_wind_statistics [some 350, some 10]).windDirDeg = 0 ∧
      (0 : ℝ) ≠ 180 := by
  refine ⟨?_, by norm_num⟩
  have hfm : (([some (350 : ℝ), some 10]).filterMap id) = [350, 10] := by simp
  unfold compute_wind_statistics
  rw [hfm]
  unfold windStatsCore
  rw [if_neg (by simp)]
  simp only
  rw [meanSin_350_10, meanCos_350_10]
  unfold arctan2
  rw [if_pos cos_deg2rad_ten_pos, zero_div, Real.arctan_zero, rad2deg_zero,
    pymod360_zero]

lemma meanSin_zeros : meanSin [0, 0, 0, 0] = 0 := by
  unfold meanSin deg2rad
  norm_num

lemma meanCos_zeros : meanCos [0, 0, 0, 0] = 1 := by
  unfold meanCos deg2rad
  norm_num

lemma resultantLen_zeros : resultantLen [0, 0, 0, 0] = 1 := by
  unfold resultantLen
  rw [meanSin_zeros, meanCos_zeros]
  norm_num

lemma deg2rad_injective {a b : ℝ} (h : deg2rad a = deg2rad b) : a = b := by
  unfold deg2rad at h
  have hpi : Real.pi ≠ 0 := Real.pi_ne_zero
  field_simp at h
  rcases h with h | h
  · exact h
  · exact absurd h hpi

/-- Branch characterization: a non-empty direction list with computed
resultant `R ≤ 0` yields the sentinel `π` rad = 180°. -/
lemma windVar_sentinel (sinF cosF : ℝ → ℝ) (dirs : List ℝ)
    (hlen : ¬ dirs.length = 0)
    (hR : resultantLenWith sinF cosF dirs ≤ 0) :
    (windStatsCoreWith sinF cosF dirs).windVarDeg = 180 := by
  unfold windStatsCoreWith
  rw [if_neg hlen]
  simp only
  rw [if_pos hR]
  exact rad2deg_pi

/-- Branch characterization: a non-empty direction list with computed
resultant `R > 0` takes the `sqrt(-2 ln R)` branch, not the sentinel. -/
lemma windVar_no_sentinel (sinF cosF : ℝ → ℝ) (dirs : List ℝ)
    (hlen : ¬ dirs.length = 0)
    (hR : 0 < resultantLenWith sinF cosF dirs) :
    (windStatsCoreWith sinF cosF dirs).windVarDeg =
      rad2deg (Real.sqrt (-2 * Real.log (resultantLenWith sinF cosF dirs))) := by
  unfold windStatsCoreWith
  rw [if_neg hlen]
  simp only
  rw [if_neg (not_le.mpr hR)]

/-- For `0 < R < exp(-2π²)` the computed circular standard deviation
`rad2deg (sqrt (-2 ln R))` exceeds 360°. -/
lemma rad2deg_sqrt_log_gt (R : ℝ) (hR : 0 < R)
    (h : R < Real.exp (-(2 * Real.pi ^ 2))) :
    360 < rad2deg (Real.sqrt (-2 * Real.log R)) := by
  have hpi := Real.pi_pos
  have hlog : Real.log R < -(2 * Real.pi ^ 2) := by
    have hlt := Real.log_lt_log hR h
    rwa [Real.log_exp] at hlt
  have h1 : (2 * Real.pi) ^ 2 < -2 * Real.log R := by nlinarith
  have h2 : 2 * Real.pi < Real.sqrt (-2 * Real.log R) := by
    have hnn : (0:ℝ) ≤ 2 * Real.pi := by positivity
    nlinarith [Real.sq_sqrt (le_of_lt (lt_of_le_of_lt (by positivity) h1)),
      Real.sqrt_nonneg (-2 * Real.log R),
      sq_nonneg (Real.sqrt (-2 * Real.log R) - 2 * Real.pi),
      sq_nonneg (Real.sqrt (-2 * Real.log R) + 2 * Real.pi)]
  unfold rad2deg
  rw [lt_div_iff hpi]
  nlinarith

lemma sinF0_vals :
    sinF0 (deg2rad 0) = 0 ∧ sinF0 (deg2rad 90) = 1 ∧
      sinF0 (deg2rad 180) = 12246467991473532 / 10 ^ 32 ∧
      sinF0 (deg2rad 270) = -1 := by
  refine ⟨?_, ?_, ?_, ?_⟩ <;> unfold sinF0
  · rw [if_neg (fun h => by have := deg2rad_injective h; norm_num at this),
      if_neg (fun h => by have := deg2rad_injective h; norm_num at this),
      if_neg (fun h => by have := deg2rad_injective h; norm_num at this)]
  · rw [if_pos rfl]
  · rw [if_neg (fun h => by have := deg2rad_injective h; norm_num at this),
      if_pos rfl]
  · rw [if_neg (fun h => by have := deg2rad_injective h; norm_num at this),
      if_neg (fun h => by have := deg2rad_injective h; norm_num at this),
      if_pos rfl]

lemma cosF0_vals :
    cosF0 (deg2rad 0) = 1 ∧ cosF0 (deg2rad 90) = 6123233995736766 / 10 ^ 32 ∧
      cosF0 (deg2rad 180) = -1 ∧
      cosF0 (deg2rad 270) = -(18369701987210297 / 10 ^ 32) := by
  refine ⟨?_, ?_, ?_, ?_⟩ <;> unfold cosF0
  · rw [if_neg (fun h => by have := deg2rad_injective h; norm_num at this),
      if_neg (fun h => by have := deg2rad_injective h; norm_num at this),
      if_neg (fun h => by have := deg2rad_injective h; norm_num at this)]
  · rw [if_pos rfl]
  · rw [if_neg (fun h => by have := deg2rad_injective h; norm_num at this),
      if_pos rfl]
  · rw [if_neg (fun h => by have := deg2rad_injective h; norm_num at this),
      if_neg (fun h => by have := deg2rad_injective h; norm_num at this),
      if_pos rfl]

lemma meanSinWith_cardinals :
    meanSinWith sinF0 [0, 90, 180, 270] = (12246467991473532 / 10 ^ 32) / 4 := by
  obtain ⟨h0, h90, h180, h270⟩ := sinF0_vals
  unfold meanSinWith
  simp only [List.map_cons, List.map_nil, List.sum_cons, List.sum_nil,
    List.length_cons, List.length_nil, h0, h90, h180, h270]
  push_cast
  ring

lemma meanCosWith_cardinals :
    meanCosWith cosF0 [0, 90, 180, 270] = -((12246467991473531 / 10 ^ 32) / 4) := by
  obtain ⟨h0, h90, h180, h270⟩ := cosF0_vals
  unfold meanCosWith
  simp only [List.map_cons, List.map_nil, List.sum_cons, List.sum_nil,
    List.length_cons, List.length_nil, h0, h90, h180, h270]
  push_cast
  ring

lemma resultantLenWith_cardinals_pos :
    0 < resultantLenWith sinF0 cosF0 [0, 90, 180, 270] := by
  unfold resultantLenWith
  rw [meanSinWith_cardinals, meanCosWith_cardinals]
  rw [Real.sqrt_pos]
  positivity

lemma resultantLenWith_cardinals_small :
    resultantLenWith sinF0 cosF0 [0, 90, 180, 270]
      < Real.exp (-(2 * Real.pi ^ 2)) := by
  have hstep1 : resultantLenWith sinF0 cosF0 [0, 90, 180, 270] < 2 / 10 ^ 16 := by
    unfold resultantLenWith
    rw [meanSinWith_cardinals, meanCosWith_cardinals]
    have hlt : ((12246467991473532 / 10 ^ 32 : ℝ) / 4) ^ 2 +
        (-((12246467991473531 / 10 ^ 32 : ℝ) / 4)) ^ 2 < (2 / 10 ^ 16) ^ 2 := by
      norm_num
    calc Real.sqrt (((12246467991473532 / 10 ^ 32 : ℝ) / 4) ^ 2 +
          (-((12246467991473531 / 10 ^ 32 : ℝ) / 4)) ^ 2)
        < Real.sqrt ((2 / 10 ^ 16) ^ 2) := by
          apply (Real.sqrt_lt_sqrt (by positivity) hlt)
      _ = 2 / 10 ^ 16 := Real.sqrt_sq (by norm_num)
  have hstep2 : (2 / 10 ^ 16 : ℝ) < Real.exp (-(2 * Real.pi ^ 2)) := by
    have hpow : Real.exp 20 < 3 ^ 20 := by
      have he : Real.exp 1 < 3 := lt_trans Real.exp_one_lt_d9 (by norm_num)
      calc Real.exp 20 = Real.exp 1 ^ 20 := by
            rw [← Real.exp_nat_mul]
            norm_num
        _ < 3 ^ 20 := by
            apply pow_lt_pow_left he (le_of_lt (Real.exp_pos 1))
            norm_num
    have hinv : ((3 : ℝ) ^ 20)⁻¹ < Real.exp (-(20 : ℝ)) := by
      rw [Real.exp_neg]
      exact inv_lt_inv_of_lt (Real.exp_pos 20) hpow
    have hmono : Real.exp (-(20 : ℝ)) < Real.exp (-(2 * Real.pi ^ 2)) := by
      apply Real.exp_lt_exp.mpr
      have hpi315 := Real.pi_lt_315
      have hpipos := Real.pi_pos
      nlinarith
    have hsmall : (2 / 10 ^ 16 : ℝ) < ((3 : ℝ) ^ 20)⁻¹ := by
      rw [lt_inv (by norm_num) (by positivity)]
      norm_num
    linarith
  linarith

/-- C8 counterexample: under the double-precision trigonometry the
program actually computes with, the four cardinal directions do NOT fall
back to the sentinel.  The library sine/cosine residues at the rounded
cardinal angles (`sinF0`/`cosF0`, the printed double values) make the
resultant length positive (about 4.3e-17), so the code takes the
`sqrt(-2 ln R)` branch and returns a circular standard deviation above
360° (about 494°) — not the 180° maximal-variance sentinel the claim
asserts. -/
theorem wind_cardinals_no_sentinel_cex :
    0 < resultantLenWith sinF0 cosF0 [0, 90, 180, 270] ∧
      360 < (windStatsCoreWith sinF0 cosF0 [0, 90, 180, 270]).windVarDeg ∧
      (windStatsCoreWith sinF0 cosF0 [0, 90, 180, 270]).windVarDeg ≠ 180 := by
  have hpos := resultantLenWith_cardinals_pos
  have hgt : 360 < (windStatsCoreWith sinF0 cosF0 [0, 90, 180, 270]).windVarDeg := by
    rw [windVar_no_sentinel sinF0 cosF0 [0, 90, 180, 270] (by simp) hpos]
    exact rad2deg_sqrt_log_gt _ hpos resultantLenWith_cardinals_small
  exact ⟨hpos, hgt, by linarith⟩

/-- C8 amended: the circular standard deviation of four constant
directions is exactly 0° (every float operation on that input is exact);
the maximal-variance sentinel fires exactly when the computed resultant
`R` is ≤ 0, and whenever the library trigonometry leaves the cardinal
residues merely tiny but positive (`0 < R < exp(-2π²)`, true of IEEE
doubles where `R ≈ 4e-17`), the code instead computes `sqrt(-2 ln R)`,
exceeding 360°. -/
theorem wind_circular_std_sentinel :
    (compute_wind_statistics [some 0, some 0, some 0, some 0]).windVarDeg = 0 ∧
      (∀ (sinF cosF : ℝ → ℝ) (dirs : List ℝ), ¬ dirs.length = 0 →
        resultantLenWith sinF cosF dirs ≤ 0 →
        (windStatsCoreWith sinF cosF dirs).windVarDeg = 180) ∧
      (∀ (sinF cosF : ℝ → ℝ) (dirs : List ℝ), ¬ dirs.length = 0 →
        0 < resultantLenWith sinF cosF dirs →
        resultantLenWith sinF cosF dirs < Real.exp (-(2 * Real.pi ^ 2)) →
        360 < (windStatsCoreWith sinF cosF dirs).windVarDeg) := by
  refine ⟨?_, windVar_sentinel, ?_⟩
  · have hfm : (([some (0 : ℝ), some 0, some 0, some 0]).filterMap id)
        = [0, 0, 0, 0] := by simp
    unfold compute_wind_statistics
    rw [hfm]
    unfold windStatsCore
    rw [if_neg (by simp)]
    simp only
    rw [if_neg (by rw [resultantLen_zeros]; norm_num), resultantLen_zeros]
    rw [Real.log_one]
    norm_num
    exact rad2deg_zero
  · intro sinF cosF dirs hlen hR hsmall
    rw [windVar_no_sentinel sinF cosF dirs hlen hR]
    exact rad2deg_sqrt_log_gt _ hR hsmall

/-- C8 witness: the sentinel clause applied to a concrete trig stub that
does cancel exactly. -/
theorem wind_circular_std_sentinel_witness :
    (windStatsCoreWith (fun _ => 0) (fun _ => 0) [0]).windVarDeg = 180 :=
  wind_circular_std_sentinel.2.1 (fun _ => 0) (fun _ => 0) [0] (by simp)
    (by unfold resultantLenWith meanSinWith meanCosWith; simp)

/-- C9: an empty wind-direction series, or one containing only missing
values, yields the fixed defaults `wind_dir_deg = 0`, `wind_var_deg = 180`
without raising. -/
theorem wind_stats_empty_defaults :
    compute_wind_statistics [] = ⟨0, 180⟩ ∧
      compute_wind_statistics [none, none, none] = ⟨0, 180⟩ := by
  constructor <;> (unfold compute_wind_statistics windStatsCore; simp)

/-- C1 counterexample: with two concurrent `get_weather` callers for the
same key, the schedule "both check, then both register" produces two
PendingRequests and two enqueued fetches — the single-flight bound fails
for the unlocked check-then-register. -/
theorem get_weather_two_fetches_cex :
    (runUnlocked 2 [0, 1, 0, 1]).fetches = 2 ∧
      ¬ (runUnlocked 2 [0, 1, 0, 1]).fetches ≤ 1 := by
  constructor <;> decide

lemma stepLocked_inv {n : Nat} (st : DedupState n) (i : Fin n)
    (h : st.fetches = if st.pendingPresent then 1 else 0) :
    (stepLocked st i).fetches =
      if (stepLocked st i).pendingPresent then 1 else 0 := by
  unfold stepLocked
  cases hpc : st.pc i <;> simp only
  case start =>
    by_cases hp : st.pendingPresent
    · simpa [hp] using h
    · simp only [hp, if_false, if_neg]
      simp [hp] at h
      simp [h]
  all_goals simpa using h

lemma runLocked_inv (n : Nat) (sched : List (Fin n)) :
    (runLocked n sched).fetches =
      if (runLocked n sched).pendingPresent then 1 else 0 := by
  unfold runLocked
  have : ∀ (st : DedupState n), st.fetches = (if st.pendingPresent then 1 else 0) →
      (sched.foldl stepLocked st).fetches =
        if (sched.foldl stepLocked st).pendingPresent then 1 else 0 := by
    induction sched with
    | nil => intro st h; simpa using h
    | cons i rest ih =>
      intro st h
      simpa using ih (stepLocked st i) (stepLocked_inv st i h)
  exact this (initDedup n) (by simp [initDedup])

/-- C1 amended: `perform_request_dedup`, whose pending-table check and
registration form one atomic step under `_RATE_LOCK`, is single-flight:
under every schedule of every number of concurrent callers, at most one
fetch is issued for the key. -/
theorem perform_request_dedup_single_flight (n : Nat) (sched : List (Fin n)) :
    (runLocked n sched).fetches ≤ 1 := by
  rw [runLocked_inv]
  split <;> simp

/-! ## Worker error-path theorems -/

/-- The retry ladder when every attempt observes HTTP 429. -/
lemma retryFetch_429 (script : Nat → AttemptOutcome)
    (h : ∀ k, script k = .ok 429 none) :
    retryFetch script = some ⟨429, none⟩ := by
  simp [retryFetch, retryAux, h]

lemma quantize_zero : quantize 0 = 0 := by
  unfold quantize roundHalfEven
  norm_num

/-- C2 counterexample: after the worker's retry ladder ends in a final
429, the in-memory deadline is set to now+60 and the task fails with
`TemporaryAPIUnavailable`, but the shared circuit-breaker file is NOT
written (it stays absent), and the pacing interval is untouched — contra
the claim that the deadline is set "in both memory and the shared
file". -/
theorem worker_final429_no_file_write :
    workerHandleTask keyD pD script429 0 stEmpty =
      some ({ stEmpty with apiDisabledUntil := 60 },
        .error (.temporaryAPIUnavailable "429 rate-limited")) ∧
    ({ stEmpty with apiDisabledUntil := 60 } : SysState).cbFile = none ∧
    (none : Option ℚ) ≠ some (0 + 60) := by
  have hr := retryFetch_429 script429 (fun _ => rfl)
  refine ⟨?_, rfl, by simp⟩
  simp [workerHandleTask, keyD, pD, stEmpty, workerFetchPhase, hr,
    show validDate 2020 1 1 = true from by decide]

/-- C2 amended: on a final 429 the worker sets only the in-memory breaker
deadline `_api_disabled_until = now + 60` and fails the task with
`TemporaryAPIUnavailable('429 rate-limited')`; the shared file is left
untouched.  Persisting the deadline to both memory and the file is done
only by the legacy `weather_openmeteo._mark_api_disabled`. -/
theorem worker_final429_memory_only
    (key : MemKey) (p : TaskParams) (script : Nat → AttemptOutcome)
    (now : ℚ) (st : SysState)
    (hcb : ¬ now < st.apiDisabledUntil)
    (hkind : p.kind = "daily")
    (hdate : validDate p.year p.month p.day = true)
    (h429 : ∀ k, script k = .ok 429 none) :
    workerHandleTask key p script now st =
      some ({ st with lastRequestTs := now, apiDisabledUntil := now + 60 },
        .error (.temporaryAPIUnavailable "429 rate-limited")) ∧
    ({ st with lastRequestTs := now, apiDisabledUntil := now + 60 } : SysState).cbFile
      = st.cbFile ∧
    (∀ (seconds lnow : ℚ) (lst : LegacyState),
      markApiDisabled seconds lnow lst =
        { lst with apiDisabledUntil := lnow + max 0 seconds,
                   cbFile := some (lnow + max 0 seconds) }) := by
  refine ⟨?_, rfl, fun seconds lnow lst => rfl⟩
  have hr := retryFetch_429 script h429
  simp [workerHandleTask, hcb, hkind, hdate, workerFetchPhase, hr]

/-- C2 witness: the amended statement applied at a concrete final-429
run. -/
theorem worker_final429_memory_only_witness :
    workerHandleTask keyD pD script429 0 stEmpty =
      some ({ stEmpty with lastRequestTs := 0, apiDisabledUntil := 0 + 60 },
        .error (.temporaryAPIUnavailable "429 rate-limited")) :=
  (worker_final429_memory_only keyD pD script429 0 stEmpty (by norm_num [stEmpty]) rfl
    (by decide) (fun _ => rfl)).1

/-- C3 counterexample: a 200 response whose body fails to parse makes
`get_weather` re-raise the raw JSON parsing exception to its caller —
which is none of the spec's taxonomy kinds. -/
theorem coordinator_raw_parse_error_cex :
    getWeather "daily" 0 0 2020 1 1 scriptBadJson 0 stEmpty =
      some (stEmpty, .error .jsonParseError) ∧
    isSpecTaxonomy .jsonParseError = false := ⟨by decide, rfl⟩

/-- C3 amended: only the two rate-limit failure paths are normalized (to
`TemporaryAPIUnavailable`): an active circuit breaker, and a final 429.
A network failure surfaces a raw `RuntimeError('Request failed')`, a
non-200 status a raw `RuntimeError('HTTP <code>')`, an unsupported kind a
raw `ValueError`, and a JSON decode failure is re-raised as-is. -/
theorem coordinator_error_surface :
    (∀ (key : MemKey) (p : TaskParams) (script : Nat → AttemptOutcome)
        (now : ℚ) (st : SysState), now < st.apiDisabledUntil →
        workerHandleTask key p script now st =
          some (st, .error (.temporaryAPIUnavailable "Circuit breaker active"))) ∧
    getWeather "daily" 0 0 2020 1 1 script429 0 stEmpty =
      some ({ stEmpty with apiDisabledUntil := 60 },
        .error (.temporaryAPIUnavailable "429 rate-limited")) ∧
    getWeather "daily" 0 0 2020 1 1 (fun _ => .ok 500 none) 0 stEmpty =
      some (stEmpty, .error (.runtimeError "HTTP 500")) ∧
    getWeather "daily" 0 0 2020 1 1 (fun _ => .exn) 0 stEmpty =
      some (stEmpty, .error (.runtimeError "Request failed")) ∧
    getWeather "bogus" 0 0 2020 1 1 (fun _ => .exn) 0 stEmpty =
      some (stEmpty, .error (.valueError "Unsupported kind: bogus")) := by
  refine ⟨?_, ?_, by decide, by decide, by decide⟩
  · intro key p script now st h
    unfold workerHandleTask
    rw [if_pos h]
  · have hr := retryFetch_429 script429 (fun _ => rfl)
    simp [getWeather, stEmpty, getWeatherDiskRead, workerHandleTask,
      workerFetchPhase, hr, show validDate 2020 1 1 = true from by decide]

/-- C3 witness: the breaker-active clause applied at a concrete state. -/
theorem coordinator_error_surface_witness :
    workerHandleTask keyD pD script429 1 stBreaker =
      some (stBreaker, .error (.temporaryAPIUnavailable "Circuit breaker active")) :=
  coordinator_error_surface.1 keyD pD script429 1 stBreaker (by norm_num [stBreaker])

/-- The fetch phase leaves the disk cache unchanged unless the task's
kind is `daily` or `daily_range`. -/
lemma workerFetchPhase_disk (key : MemKey) (p : TaskParams)
    (script : Nat → AttemptOutcome) (now : ℚ) (st : SysState)
    (res : SysState × Except WError Payload)
    (h : workerFetchPhase key p script now st = some res)
    (h1 : p.kind ≠ "daily") (h2 : p.kind ≠ "daily_range") :
    res.1.disk = st.disk := by
  unfold workerFetchPhase at h
  split at h
  · cases h; rfl
  · split at h
    · cases h; rfl
    · split at h
      · cases h; rfl
      · split at h
        · cases h; rfl
        · simp only [if_neg h1, if_neg h2] at h
          cases h; rfl

/-- C10: disk-cache frame.  (a) the worker never writes the disk cache
for a task whose kind is neither `daily` nor `daily_range`; (b)
`get_weather` consults the disk only for `kind = 'daily'`; (c) an
`hourly` request through `get_weather` leaves the disk cache unchanged. -/
theorem disk_cache_frame :
    (∀ (key : MemKey) (p : TaskParams) (script : Nat → AttemptOutcome)
        (now : ℚ) (st : SysState) (res : SysState × Except WError Payload),
        workerHandleTask key p script now st = some res →
        p.kind ≠ "daily" → p.kind ≠ "daily_range" →
        res.1.disk = st.disk) ∧
    (∀ (kind : String) (qlat qlon : ℚ) (year month day : Nat)
        (disk : List (DiskKey × Payload)), kind ≠ "daily" →
        getWeatherDiskRead kind qlat qlon year month day disk = none) ∧
    (∀ (lat lon : ℚ) (year month day : Nat) (script : Nat → AttemptOutcome)
        (now : ℚ) (st : SysState) (res : SysState × Except WError Payload),
        getWeather "hourly" lat lon year month day script now st = some res →
        res.1.disk = st.disk) := by
  have hworker : ∀ (key : MemKey) (p : TaskParams) (script : Nat → AttemptOutcome)
      (now : ℚ) (st : SysState) (res : SysState × Except WError Payload),
      workerHandleTask key p script now st = some res →
      p.kind ≠ "daily" → p.kind ≠ "daily_range" →
      res.1.disk = st.disk := by
    intro key p script now st res h h1 h2
    unfold workerHandleTask at h
    by_cases hcb : now < st.apiDisabledUntil
    · rw [if_pos hcb] at h
      cases h; rfl
    · rw [if_neg hcb] at h
      by_cases hk : p.kind = "daily" ∨ p.kind = "hourly"
      · rw [if_pos hk] at h
        by_cases hv : validDate p.year p.month p.day
        · rw [if_pos hv] at h
          have hd := workerFetchPhase_disk key p script now _ res h h1 h2
          exact hd
        · rw [if_neg hv] at h
          cases h
      · rw [if_neg hk] at h
        by_cases hr : p.kind = "daily_range"
        · exact absurd hr h2
        · rw [if_neg hr] at h
          cases h; rfl
  refine ⟨hworker, ?_, ?_⟩
  · intro kind qlat qlon year month day disk hk
    unfold getWeatherDiskRead
    rw [if_neg hk]
  · intro lat lon year month day script now st res h
    unfold getWeather at h
    split at h
    · cases h; rfl
    · split at h
      · cases h; rfl
      · exact hworker _ _ script now st res h
          (show ("hourly" : String) ≠ "daily" from by decide)
          (show ("hourly" : String) ≠ "daily_range" from by decide)

/-- C10 witness: the hourly-frame clause applied at a concrete state. -/
theorem disk_cache_frame_witness :
    ((stHourly, Except.ok (7 : Payload)) : SysState × Except WError Payload).1.disk
      = stHourly.disk :=
  disk_cache_frame.2.2 0 0 2020 1 1 (fun _ => .exn) 0 stHourly
    (stHourly, .ok 7) (by simp [getWeather, stHourly, quantize_zero])

/-! ## Offline store-file selection theorems -/

/-- C4 counterexample: `fA` and `fB` tie on tile count (10) and year span
(5); `fA` has the more recent modification time, so the spec's tie-break
order picks `fA` — but the code picks `fB`, because its score tuple
inserts the end year as a third criterion before mtime. -/
theorem default_from_env_end_year_cex :
    defaultFromEnv [fA, fB] = some fB ∧
      specSelect [fA, fB] = some fA ∧ fB ≠ fA := by
  refine ⟨by decide, by decide, by decide⟩

/-- C4 amended: the selection returns a candidate that no other candidate
strictly beats in the lexicographic order on
`(tile count, year span, end year, mtime)` — i.e. the tie-break order is
tile count, then span, then end year, then modification time. -/
theorem default_from_env_selection (cands : List StoreFile) (f : StoreFile)
    (h : defaultFromEnv cands = some f) :
    f ∈ cands ∧ ∀ g ∈ cands, ¬ tupLt (score f) (score g) := by
  cases cands with
  | nil => simp [defaultFromEnv] at h
  | cons x xs =>
    unfold defaultFromEnv at h
    simp only [List.foldl_cons] at h
    have hstep : selectStep none x = some x := rfl
    rw [hstep] at h
    obtain ⟨hmem, hge, hall⟩ := selectAux xs x f h
    refine ⟨?_, ?_⟩
    · rcases hmem with rfl | hm
      · exact List.mem_cons_self _ _
      · exact List.mem_cons_of_mem _ hm
    · intro g hg
      rcases List.mem_cons.mp hg with rfl | hg'
      · exact hge
      · exact hall g hg'

/-- C4 witness: the amended statement applied to the concrete pair. -/
theorem default_from_env_selection_witness :
    fB ∈ [fA, fB] ∧ ∀ g ∈ [fA, fB], ¬ tupLt (score fB) (score g) :=
  default_from_env_selection [fA, fB] fB (by decide)

/-! ## Offline store config-validation theorems -/

/-- C6 counterexample: a meta table with `provider_only = "True"` — a
value different from the string `"true"` — is nonetheless accepted,
because `_load_config` lowercases the value before comparing. -/
theorem provider_only_case_insensitive_cex :
    loadConfig "db" metaCapitalTrue pf0 pb0 py0 =
      some ⟨"db", 50, (43, 44, 1, 2), none⟩ ∧
      metaCapitalTrue.lookup "provider_only" = some "True" ∧
      some "True" ≠ some "true" := by
  refine ⟨by decide, by decide, by decide⟩

/-- C6 amended: the store is rejected unless `meta.provider` equals
`"open-meteo"` exactly and `meta.provider_only` lowercases to `"true"`
(so `"True"`/`"TRUE"` are accepted); any file failing either check yields
no configuration. -/
theorem offline_store_provider_check (dbPath : String)
    (meta : List (String × String)) (parseFloat : String → Option ℚ)
    (parseBbox : String → Option (ℚ × ℚ × ℚ × ℚ))
    (parseYears : String → Option (Int × Int))
    (h : meta.lookup "provider" ≠ some "open-meteo" ∨
      strLower ((meta.lookup "provider_only").getD "") ≠ "true") :
    loadConfig dbPath meta parseFloat parseBbox parseYears = none := by
  unfold loadConfig
  rcases h with h | h
  · rw [if_pos h]
  · by_cases hp : meta.lookup "provider" ≠ some "open-meteo"
    · rw [if_pos hp]
    · rw [if_neg hp, if_pos h]

/-- C6 witness: a meta table with `provider_only = "false"` is rejected. -/
theorem offline_store_provider_check_witness :
    loadConfig "db" metaFalse pf0 pb0 py0 = none :=
  offline_store_provider_check "db" metaFalse pf0 pb0 py0 (Or.inr (by decide))

lemma KM_PER_DEG_pos : (0 : ℚ) < KM_PER_DEG := by norm_num [KM_PER_DEG]

/-- C5: `tileIdForPoint` is a left-inverse of the tile generator — every
tile the grid layout produces for a valid bbox and positive `tile_km` maps
back to its own `"r{row}_c{col}"` identifier from its stored center, and
every point outside the bbox maps to `none`. -/
theorem tile_id_left_inverse
    (cosFn : ℚ → ℚ) (latMin latMax lonMin lonMax tileKm : ℚ)
    (hkm : 0 < tileKm) (hlat : latMin < latMax) (hlon : lonMin < lonMax)
    (hlo : -90 ≤ latMin) (hhi : latMax ≤ 90) :
    (∀ tiles, tileGrid cosFn latMin latMax lonMin lonMax tileKm = some tiles →
      ∀ t ∈ tiles,
        tileIdForPoint cosFn tileKm latMin latMax lonMin lonMax t.lat t.lon
          = some t.tileId) ∧
    (∀ lat lon, ¬ (latMin ≤ lat ∧ lat ≤ latMax ∧ lonMin ≤ lon ∧ lon ≤ lonMax) →
      tileIdForPoint cosFn tileKm latMin latMax lonMin lonMax lat lon = none) := by
  constructor
  · intro tiles hgrid t ht
    have hbb : ¬ (latMax ≤ latMin ∨ lonMax ≤ lonMin) := by
      push_neg
      exact ⟨hlat, hlon⟩
    unfold tileGrid at hgrid
    rw [if_neg hbb] at hgrid
    injection hgrid with hgrid
    subst hgrid
    simp only [tileGridRows, List.mem_flatMap] at ht
    obtain ⟨row, hrow, ht⟩ := ht
    simp only [tileRowTiles, List.mem_map] at ht
    obtain ⟨col, hcol, rfl⟩ := ht
    set stepLat := tileKm / KM_PER_DEG with hsl
    have hslpos : 0 < stepLat := div_pos hkm KM_PER_DEG_pos
    set latC := latCenter latMin stepLat row with hlc
    set c := max (1/20 : ℚ) (cosFn latC) with hc
    have hcpos : 0 < c := lt_of_lt_of_le (by norm_num) (le_max_left _ _)
    set stepLon := tileKm / (KM_PER_DEG * c) with hslon
    have hslonpos : 0 < stepLon := div_pos hkm (mul_pos KM_PER_DEG_pos hcpos)
    set lonC := lonCenter lonMin stepLon col with holc
    have hrowle : latC ≤ latMax := by
      have := List.mem_takeWhile_imp hrow
      simpa using this
    have hcolle : lonC ≤ lonMax := by
      have := List.mem_takeWhile_imp hcol
      simpa using this
    have hlatc_lo : latMin < latC := by
      rw [hlc]
      unfold latCenter
      have hpos : 0 < ((row : ℚ) + 1/2) * stepLat :=
        mul_pos (by positivity) hslpos
      linarith
    have hlonc_lo : lonMin < lonC := by
      rw [holc]
      unfold lonCenter
      have hpos : 0 < ((col : ℚ) + 1/2) * stepLon :=
        mul_pos (by positivity) hslonpos
      linarith
    have hclamp : clampLat latC = latC := by
      unfold clampLat
      rw [min_eq_right (by linarith : latC ≤ 90),
        max_eq_right (by linarith : (-90 : ℚ) ≤ latC)]
    simp only
    rw [hclamp]
    unfold tileIdForPoint
    rw [if_neg (not_not_intro
      ⟨le_of_lt hlatc_lo, hrowle, le_of_lt hlonc_lo, hcolle⟩)]
    simp only
    rw [← hsl]
    have hrowfloor : ⌊(latC - latMin) / stepLat⌋ = (row : ℤ) := by
      have harg : (latC - latMin) / stepLat = (row : ℚ) + 1/2 := by
        rw [hlc]
        unfold latCenter
        field_simp
        ring
      rw [harg]
      exact Int.floor_eq_iff.mpr ⟨by push_cast; linarith, by push_cast; linarith⟩
    rw [hrowfloor]
    rw [if_neg (not_lt.mpr (Int.natCast_nonneg row))]
    simp only [Int.toNat_natCast]
    rw [← hlc, ← hc, ← hslon]
    have heps : (0 : ℚ) < 1 / 10 ^ 9 := by norm_num
    rw [if_neg (not_lt.mpr (by linarith : latC ≤ latMax + 1 / 10 ^ 9))]
    have hcolfloor : ⌊(lonC - lonMin) / stepLon⌋ = (col : ℤ) := by
      have harg : (lonC - lonMin) / stepLon = (col : ℚ) + 1/2 := by
        rw [holc]
        unfold lonCenter
        field_simp
        ring
      rw [harg]
      exact Int.floor_eq_iff.mpr ⟨by push_cast; linarith, by push_cast; linarith⟩
    rw [hcolfloor]
    rw [if_neg (not_lt.mpr (Int.natCast_nonneg col))]
    simp only [Int.toNat_natCast]
    rw [← holc]
    rw [if_neg (not_lt.mpr (by linarith : lonC ≤ lonMax + 1 / 10 ^ 9))]
  · intro lat lon h
    unfold tileIdForPoint
    rw [if_pos h]

/-- C5 witness: the left-inverse applied to the concrete tile `r0_c0` of
a concrete grid. -/
theorem tile_id_left_inverse_witness :
    tileIdForPoint cosHalf (2783/50) 0 1 0 2 (1/4) (1/2) = some "r0_c0" := by
  have hgrid : tileGrid cosHalf 0 1 0 2 (2783/50) = some tiles0 := by
    have h1 : (2783/50 : ℚ) / KM_PER_DEG = 1/2 := by norm_num [KM_PER_DEG]
    have h2 : (2783/50 : ℚ) / (KM_PER_DEG * (1/2)) = 1 := by norm_num [KM_PER_DEG]
    unfold tileGrid tileGridRows tileRowTiles cosHalf
    rw [if_neg (by norm_num)]
    norm_num [h1, h2, latCenter, lonCenter, clampLat, tileIdStr, tiles0,
      List.takeWhile, List.range_succ]
    exact ⟨rfl, rfl, rfl, rfl⟩
  have h := (tile_id_left_inverse cosHalf 0 1 0 2 (2783/50) (by norm_num)
    (by norm_num) (by norm_num) (by norm_num) (by norm_num)).1 tiles0 hgrid
    ⟨"r0_c0", 0, 0, 1/4, 1/2⟩ (by simp [tiles0])
  simpa using h

end Touracle
